import Mathlib

/-!
Verification of the BillRights extraction pipeline.

This file gives a shallow embedding of the TypeScript source:
* `src/unnamed/part_002` (`types.ts`): the data model (`InvoiceData`,
  `BusinessCardData`, `LineItem`, `ExtractionStatus`);
* `src/unnamed/part_000` (`geminiService.ts`): the response handling of
  `extractInvoiceData` / `extractBusinessCardData`, including a model of
  `JSON.parse`;
* `src/unnamed/part_001` (`InvoiceTab.tsx`) and
  `src/components/BusinessCardTab.tsx`: the `processFiles` batch loop, the
  tab component state, and `getGoogleContactsText`.

Modelling conventions:
* JavaScript `null`/`undefined` on a field of type `T` becomes `Option T`
  (`none` = absent or null; the code treats both the same via `??`).
* JavaScript numbers become `ℚ` (the claims never depend on binary
  floating-point rounding).
* The external model capability is nondeterministic; its response for the
  i-th invocation of a batch run is supplied by an oracle
  `extract : Nat → JSFile → Except String …` (index = invocation count).
* Each loop iteration calls `Math.random()` exactly once (either in the
  success branch or in the catch branch), so the i-th iteration's draw is
  `draws i`, where `draws : Nat → Nat` gives the successive mantissas
  `k < 2 ^ 52` of the pseudo-random doubles `k / 2 ^ 52`.
-/

/-- `types.ts`: `ExtractionStatus = 'idle' | 'processing' | 'success' | 'error'`. -/
inductive ExtractionStatus where
  | idle : ExtractionStatus
  | processing : ExtractionStatus
  | success : ExtractionStatus
  | error : ExtractionStatus
deriving Repr, DecidableEq

/-- `types.ts`: `LineItem`. -/
structure LineItem where
  description : String
  quantity : ℚ
  unit_price : ℚ
  line_total : ℚ
deriving Repr, DecidableEq

/-- `types.ts`: `InvoiceData`. Fields typed `T | null` become `Option T`. -/
structure InvoiceData where
  id : String
  fileName : String
  invoice_number : Option String
  invoice_date : Option String
  supplier_name : Option String
  supplier_tax_id : Option String
  total_amount : Option ℚ
  currency : Option String
  tax_amount : Option ℚ
  line_items : List LineItem
deriving Repr, DecidableEq

/-- `types.ts`: `BusinessCardData`. -/
structure BusinessCardData where
  id : String
  fileName : String
  full_name : Option String
  company : Option String
  job_title : Option String
  email : Option String
  phone : Option String
  website : Option String
  address : Option String
deriving Repr, DecidableEq

/-- The raw extraction payload `Partial<InvoiceData>` restricted to the schema
fields (the schema in `geminiService.ts` never produces `id`/`fileName`, and
`processFiles` ignores them on the raw data). `none` = field absent or null. -/
structure RawInvoiceData where
  invoice_number : Option String
  invoice_date : Option String
  supplier_name : Option String
  supplier_tax_id : Option String
  total_amount : Option ℚ
  currency : Option String
  tax_amount : Option ℚ
  line_items : Option (List LineItem)
deriving Repr, DecidableEq

/-- The raw extraction payload `Partial<BusinessCardData>` restricted to the
schema fields. -/
structure RawBusinessCardData where
  full_name : Option String
  company : Option String
  job_title : Option String
  email : Option String
  phone : Option String
  website : Option String
  address : Option String
deriving Repr, DecidableEq

/-- An uploaded `File` as far as the pipeline observes it: its `name` and an
abstraction of its binary content. -/
structure JSFile where
  name : String
  content : String
deriving Repr, DecidableEq

/-! ## Identifier generation

The source generates record ids by `Math.random().toString(36).substr(2, 9)`.
`Math.random()` returns a double `k / 2 ^ 52` with mantissa `k < 2 ^ 52`;
`toString(36)` prints `"0."` followed by the base-36 digits of the fractional
expansion (just `"0"` when `k = 0`), and `substr(2, 9)` keeps the first nine
characters after `"0."`.  `randomIdString k` computes exactly those (at most
nine) digit characters by exact arithmetic; the expansion stops early when the
remainder reaches zero, matching the printed form having no further digits. -/

/-- Granularity of `Math.random()`: it returns `k / 2 ^ 52` for some `k < 2 ^ 52`. -/
def POW52 : Nat := 2 ^ 52

/-- JavaScript base-36 digit characters: `0`-`9` then lowercase `a`-`z`. -/
def base36DigitChar (d : Nat) : Char :=
  if d < 10 then Char.ofNat (48 + d) else Char.ofNat (87 + d)

/-- The successive base-36 fractional digits of `r / 2 ^ 52`, at most `steps`
of them, stopping when the remainder hits zero. -/
def idFracDigits : Nat → Nat → List Nat
  | 0, _ => []
  | steps + 1, r =>
    if r = 0 then []
    else (r * 36) / POW52 :: idFracDigits steps ((r * 36) % POW52)

/-- `Math.random().toString(36).substr(2, 9)` for the draw with mantissa `k`. -/
def randomIdString (k : Nat) : String :=
  String.mk ((idFracDigits 9 k).map base36DigitChar)

/-- The value of a big-endian base-36 digit list. -/
def beVal : List Nat → Nat
  | [] => 0
  | d :: ds => d * 36 ^ ds.length + beVal ds

/-- The first nine base-36 fractional digits of `k / 2 ^ 52`, as one number:
`⌊k * 36 ^ 9 / 2 ^ 52⌋`.  Two draws get the same id string exactly when they
agree on this truncation. -/
def idTrunc (k : Nat) : Nat := k * 36 ^ 9 / POW52

/-- Decode a base-36 digit character back to its value. -/
def base36CharVal (c : Char) : Nat :=
  if c.toNat ≤ 57 then c.toNat - 48 else c.toNat - 87

/-- Recover the nine-digit truncation from an id string (padding the dropped
trailing zero digits). -/
def idStringToTrunc (s : String) : Nat :=
  beVal (s.data.map base36CharVal) * 36 ^ (9 - s.data.length)

/-! ## Normalization (`processFiles`, success branch) -/

/-- `InvoiceTab.tsx` lines 35–46: build a full `InvoiceData` from the partial
extraction result, substituting the safe defaults (`?? null`, `?? "Unknown
Supplier"`, `?? 0`, `?? 'USD'`, `?? []`). -/
def normalizeInvoice (id fileName : String) (data : RawInvoiceData) : InvoiceData :=
  { id := id
    fileName := fileName
    invoice_number := data.invoice_number
    invoice_date := data.invoice_date
    supplier_name := some (data.supplier_name.getD "Unknown Supplier")
    supplier_tax_id := data.supplier_tax_id
    total_amount := some (data.total_amount.getD 0)
    currency := some (data.currency.getD "USD")
    tax_amount := some (data.tax_amount.getD 0)
    line_items := data.line_items.getD [] }

/-- `InvoiceTab.tsx` lines 53–64: the failure placeholder pushed in the catch
branch. -/
def invoiceFailureRecord (id fileName : String) : InvoiceData :=
  { id := id
    fileName := fileName
    invoice_number := some "ERROR"
    invoice_date := none
    supplier_name := some "Extraction Failed"
    supplier_tax_id := none
    total_amount := some 0
    currency := some ""
    tax_amount := some 0
    line_items := [] }

/-- `BusinessCardTab.tsx` lines 33–43: build a full `BusinessCardData` from the
partial extraction result (`?? "Unknown"`, `?? null`). -/
def normalizeBusinessCard (id fileName : String) (data : RawBusinessCardData) :
    BusinessCardData :=
  { id := id
    fileName := fileName
    full_name := some (data.full_name.getD "Unknown")
    company := data.company
    job_title := data.job_title
    email := data.email
    phone := data.phone
    website := data.website
    address := data.address }

/-- `BusinessCardTab.tsx` lines 46–56: the failure placeholder pushed in the
catch branch. -/
def businessCardFailureRecord (id fileName : String) : BusinessCardData :=
  { id := id
    fileName := fileName
    full_name := some "Extraction Failed"
    company := none
    job_title := none
    email := none
    phone := none
    website := none
    address := none }

/-! ## The batch loop (`processFiles`) -/

/-- One iteration of the invoice `for (const file of files)` loop: try the
pipeline (`extract i f` is the outcome of the i-th invocation — `ok` with the
parsed partial data, or `error` if encoding, the model call, or parsing threw);
on success normalize, on failure push the placeholder.  Either branch consumes
the i-th `Math.random()` draw for the record id. -/
def invoiceStep (draws : Nat → Nat)
    (extract : Nat → JSFile → Except String RawInvoiceData)
    (i : Nat) (f : JSFile) : InvoiceData :=
  match extract i f with
  | Except.ok data => normalizeInvoice (randomIdString (draws i)) f.name data
  | Except.error _ => invoiceFailureRecord (randomIdString (draws i)) f.name

/-- The invoice batch loop, processing files strictly one by one, starting at
invocation counter `i`. -/
def invoiceLoop (draws : Nat → Nat)
    (extract : Nat → JSFile → Except String RawInvoiceData) :
    Nat → List JSFile → List InvoiceData
  | _, [] => []
  | i, f :: fs => invoiceStep draws extract i f :: invoiceLoop draws extract (i + 1) fs

/-- The `newInvoices` list built by one run of `processFiles` over `files`. -/
def runInvoiceBatch (draws : Nat → Nat)
    (extract : Nat → JSFile → Except String RawInvoiceData)
    (files : List JSFile) : List InvoiceData :=
  invoiceLoop draws extract 0 files

/-- One iteration of the business-card loop. -/
def businessCardStep (draws : Nat → Nat)
    (extract : Nat → JSFile → Except String RawBusinessCardData)
    (i : Nat) (f : JSFile) : BusinessCardData :=
  match extract i f with
  | Except.ok data => normalizeBusinessCard (randomIdString (draws i)) f.name data
  | Except.error _ => businessCardFailureRecord (randomIdString (draws i)) f.name

/-- The business-card batch loop. -/
def businessCardLoop (draws : Nat → Nat)
    (extract : Nat → JSFile → Except String RawBusinessCardData) :
    Nat → List JSFile → List BusinessCardData
  | _, [] => []
  | i, f :: fs =>
    businessCardStep draws extract i f :: businessCardLoop draws extract (i + 1) fs

/-- The `newCards` list built by one run of `processFiles` over `files`. -/
def runBusinessCardBatch (draws : Nat → Nat)
    (extract : Nat → JSFile → Except String RawBusinessCardData)
    (files : List JSFile) : List BusinessCardData :=
  businessCardLoop draws extract 0 files

/-! ## Component state -/

/-- The `InvoiceTab` React state: `files`, `invoices`, `status`, `errorMsg`. -/
structure InvoiceTabState where
  files : List JSFile
  invoices : List InvoiceData
  status : ExtractionStatus
  errorMsg : Option String
deriving Repr, DecidableEq

/-- `useState` initial values of `InvoiceTab`. -/
def invoiceTabStart : InvoiceTabState :=
  { files := [], invoices := [], status := ExtractionStatus.idle, errorMsg := none }

/-- `InvoiceTab.handleFilesSelected`. -/
def handleFilesSelectedInvoice (selected : List JSFile) (s : InvoiceTabState) :
    InvoiceTabState :=
  { s with files := selected, errorMsg := none }

/-- The net effect of one complete `InvoiceTab.processFiles` call: with an
empty queue, only set the error message (status untouched); otherwise append
the new records, clear the queue, and set status to success. -/
def processFilesInvoice (draws : Nat → Nat)
    (extract : Nat → JSFile → Except String RawInvoiceData)
    (s : InvoiceTabState) : InvoiceTabState :=
  if s.files.isEmpty then
    { s with errorMsg := some "Please upload at least one invoice file first." }
  else
    { files := []
      invoices := s.invoices ++ runInvoiceBatch draws extract s.files
      status := ExtractionStatus.success
      errorMsg := none }

/-- State transitions of the invoice tab: selecting files, the visible
intermediate processing state set at the top of a non-empty `processFiles`
run, and a completed `processFiles` call. -/
inductive InvoiceTabStep : InvoiceTabState → InvoiceTabState → Prop where
  | select (fs : List JSFile) (s : InvoiceTabState) :
      InvoiceTabStep s (handleFilesSelectedInvoice fs s)
  | beginProcessing (s : InvoiceTabState) : ¬ s.files.isEmpty →
      InvoiceTabStep s { s with status := ExtractionStatus.processing, errorMsg := none }
  | process (draws : Nat → Nat)
      (extract : Nat → JSFile → Except String RawInvoiceData) (s : InvoiceTabState) :
      InvoiceTabStep s (processFilesInvoice draws extract s)

/-- States the invoice tab can reach from its initial state. -/
inductive InvoiceTabReachable : InvoiceTabState → Prop where
  | start : InvoiceTabReachable invoiceTabStart
  | step {s t : InvoiceTabState} : InvoiceTabReachable s → InvoiceTabStep s t →
      InvoiceTabReachable t

/-- The `BusinessCardTab` React state (ignoring the pure-UI `copyFeedback`). -/
structure BusinessCardTabState where
  files : List JSFile
  cards : List BusinessCardData
  status : ExtractionStatus
  errorMsg : Option String
deriving Repr, DecidableEq

/-- `useState` initial values of `BusinessCardTab`. -/
def businessCardTabStart : BusinessCardTabState :=
  { files := [], cards := [], status := ExtractionStatus.idle, errorMsg := none }

/-- `BusinessCardTab.handleFilesSelected`. -/
def handleFilesSelectedCard (selected : List JSFile) (s : BusinessCardTabState) :
    BusinessCardTabState :=
  { s with files := selected, errorMsg := none }

/-- The net effect of one complete `BusinessCardTab.processFiles` call. -/
def processFilesCard (draws : Nat → Nat)
    (extract : Nat → JSFile → Except String RawBusinessCardData)
    (s : BusinessCardTabState) : BusinessCardTabState :=
  if s.files.isEmpty then
    { s with errorMsg := some "Please upload at least one business card." }
  else
    { files := []
      cards := s.cards ++ runBusinessCardBatch draws extract s.files
      status := ExtractionStatus.success
      errorMsg := none }

/-- State transitions of the business-card tab. -/
inductive CardTabStep : BusinessCardTabState → BusinessCardTabState → Prop where
  | select (fs : List JSFile) (s : BusinessCardTabState) :
      CardTabStep s (handleFilesSelectedCard fs s)
  | beginProcessing (s : BusinessCardTabState) : ¬ s.files.isEmpty →
      CardTabStep s { s with status := ExtractionStatus.processing, errorMsg := none }
  | process (draws : Nat → Nat)
      (extract : Nat → JSFile → Except String RawBusinessCardData)
      (s : BusinessCardTabState) :
      CardTabStep s (processFilesCard draws extract s)

/-- States the business-card tab can reach from its initial state. -/
inductive CardTabReachable : BusinessCardTabState → Prop where
  | start : CardTabReachable businessCardTabStart
  | step {s t : BusinessCardTabState} : CardTabReachable s → CardTabStep s t →
      CardTabReachable t

/-! ## Clipboard export (`getGoogleContactsText`) -/

/-- The template literal of `getGoogleContactsText`: the seven declared fields
joined by `"; "`, null rendered as the empty string (`c.field || ''`). -/
def businessCardLine (c : BusinessCardData) : String :=
  (c.full_name.getD "") ++ "; " ++ (c.company.getD "") ++ "; " ++
  (c.job_title.getD "") ++ "; " ++ (c.email.getD "") ++ "; " ++
  (c.phone.getD "") ++ "; " ++ (c.website.getD "") ++ "; " ++
  (c.address.getD "")

/-- JavaScript `Array.prototype.join('\n')`. -/
def joinWithNewline : List String → String
  | [] => ""
  | [s] => s
  | s :: rest => s ++ "\n" ++ joinWithNewline rest

/-- `BusinessCardTab.getGoogleContactsText` over the `cards` collection. -/
def getGoogleContactsText (cards : List BusinessCardData) : String :=
  if cards.isEmpty then ""
  else joinWithNewline (cards.map businessCardLine)

/-- Modelled from the spec: the export-boundary flat line format — "one line
per record, fields joined by `; ` in declared field order", null values
rendered as empty strings.  Used only to compare against
`getGoogleContactsText`. -/
def specClipboardText (cards : List BusinessCardData) : String :=
  String.intercalate "\n" (cards.map (fun c =>
    String.intercalate "; "
      [c.full_name.getD "", c.company.getD "", c.job_title.getD "",
       c.email.getD "", c.phone.getD "", c.website.getD "", c.address.getD ""]))

/-- The number of newline characters in a string. -/
def newlineCount (s : String) : Nat := s.data.count '\n'

/-- Helper for relating the join used by the code to `String.intercalate`:
the tail of a separator-joined list. -/
def joinSepTail (sep : String) : List String → String
  | [] => ""
  | a :: as => sep ++ a ++ joinSepTail sep as

/-! ## `JSON.parse` and the response handling of the extraction functions

`extractInvoiceData` / `extractBusinessCardData` end with
```
const text = response.text;
if (!text) throw new Error("No data returned from model");
try { return JSON.parse(text); }
catch { throw new Error("Failed to parse model response"); }
```
`Json` and `jsonParse` model the ECMAScript `JSON.parse` grammar by a
recursive-descent parser over the character list (fuel-indexed for the nested
values).  Numbers are kept as exact rationals — the claims never depend on
double rounding — and a lone `\uXXXX` surrogate half is approximated by the
replacement of `Char.ofNat` on an invalid scalar value. -/

/-- A parsed JSON value. -/
inductive Json where
  | null : Json
  | bool (b : Bool) : Json
  | num (q : ℚ) : Json
  | str (s : String) : Json
  | arr (elements : List Json) : Json
  | obj (members : List (String × Json)) : Json

/-- JSON whitespace: space, tab, line feed, carriage return. -/
def isJsonWs (c : Char) : Bool :=
  c = ' ' || c = Char.ofNat 9 || c = Char.ofNat 10 || c = Char.ofNat 13

/-- Skip leading JSON whitespace. -/
def skipWs : List Char → List Char
  | [] => []
  | c :: cs => if isJsonWs c then skipWs cs else c :: cs

/-- Value of a hexadecimal digit character, if it is one. -/
def hexDigitVal (c : Char) : Option Nat :=
  if 48 ≤ c.toNat ∧ c.toNat ≤ 57 then some (c.toNat - 48)
  else if 97 ≤ c.toNat ∧ c.toNat ≤ 102 then some (c.toNat - 87)
  else if 65 ≤ c.toNat ∧ c.toNat ≤ 70 then some (c.toNat - 55)
  else none

/-- Parse the body of a JSON string after the opening quote: returns the
decoded characters and the remainder after the closing quote. -/
def parseStringRest : List Char → Option (List Char × List Char)
  | [] => none
  | '\"' :: rest => some ([], rest)
  | '\\' :: rest =>
    match rest with
    | '\"' :: r => (parseStringRest r).map (fun p => ('\"' :: p.1, p.2))
    | '\\' :: r => (parseStringRest r).map (fun p => ('\\' :: p.1, p.2))
    | '/' :: r => (parseStringRest r).map (fun p => ('/' :: p.1, p.2))
    | 'b' :: r => (parseStringRest r).map (fun p => (Char.ofNat 8 :: p.1, p.2))
    | 'f' :: r => (parseStringRest r).map (fun p => (Char.ofNat 12 :: p.1, p.2))
    | 'n' :: r => (parseStringRest r).map (fun p => (Char.ofNat 10 :: p.1, p.2))
    | 'r' :: r => (parseStringRest r).map (fun p => (Char.ofNat 13 :: p.1, p.2))
    | 't' :: r => (parseStringRest r).map (fun p => (Char.ofNat 9 :: p.1, p.2))
    | 'u' :: h1 :: h2 :: h3 :: h4 :: r =>
      match hexDigitVal h1, hexDigitVal h2, hexDigitVal h3, hexDigitVal h4 with
      | some a, some b, some c, some d =>
        (parseStringRest r).map
          (fun p => (Char.ofNat (((a * 16 + b) * 16 + c) * 16 + d) :: p.1, p.2))
      | _, _, _, _ => none
    | _ => none
  | c :: rest =>
    if c.toNat < 32 then none
    else (parseStringRest rest).map (fun p => (c :: p.1, p.2))

/-- Take a maximal run of decimal digits. -/
def takeDigits : List Char → List Char × List Char
  | [] => ([], [])
  | c :: cs =>
    if c.isDigit then
      let p := takeDigits cs
      (c :: p.1, p.2)
    else ([], c :: cs)

/-- Decimal value of a digit run. -/
def digitsVal (ds : List Char) : Nat :=
  ds.foldl (fun a c => a * 10 + (c.toNat - 48)) 0

/-- Parse the JSON integer part: `0`, or a nonzero digit followed by digits
(no leading zeros). -/
def parseIntPart : List Char → Option (List Char × List Char)
  | [] => none
  | c :: cs =>
    if c = '0' then
      match cs with
      | d :: _ => if d.isDigit then none else some (['0'], cs)
      | [] => some (['0'], [])
    else if c.isDigit then
      let p := takeDigits cs
      some (c :: p.1, p.2)
    else none

/-- Parse an optional JSON fraction part, returned as its rational value. -/
def parseFracPart : List Char → Option (ℚ × List Char)
  | '.' :: cs =>
    let p := takeDigits cs
    if p.1.isEmpty then none
    else some ((digitsVal p.1 : ℚ) / (10 : ℚ) ^ p.1.length, p.2)
  | cs => some (0, cs)

/-- Parse an optional JSON exponent part, returned as a signed exponent. -/
def parseExpPart : List Char → Option (ℤ × List Char)
  | c :: cs =>
    if c = 'e' ∨ c = 'E' then
      let sp : ℤ × List Char :=
        match cs with
        | '+' :: r => (1, r)
        | '-' :: r => (-1, r)
        | r => (1, r)
      let p := takeDigits sp.2
      if p.1.isEmpty then none else some (sp.1 * (digitsVal p.1 : ℤ), p.2)
    else some (0, c :: cs)
  | [] => some (0, [])

/-- Parse a JSON number (`-? int frac? exp?`) as an exact rational. -/
def parseNumber (cs : List Char) : Option (ℚ × List Char) :=
  let sp : Bool × List Char :=
    match cs with
    | '-' :: r => (true, r)
    | r => (false, r)
  match parseIntPart sp.2 with
  | none => none
  | some (ids, cs2) =>
    match parseFracPart cs2 with
    | none => none
    | some (fv, cs3) =>
      match parseExpPart cs3 with
      | none => none
      | some (ex, cs4) =>
        let mag : ℚ := ((digitsVal ids : ℚ) + fv) * (10 : ℚ) ^ ex
        some (if sp.1 then -mag else mag, cs4)

mutual

/-- Parse one JSON value (fuel bounds the nesting). -/
def parseVal : Nat → List Char → Option (Json × List Char)
  | 0, _ => none
  | fuel + 1, cs =>
    match skipWs cs with
    | [] => none
    | 'n' :: cs2 =>
      match cs2 with
      | 'u' :: 'l' :: 'l' :: r => some (Json.null, r)
      | _ => none
    | 't' :: cs2 =>
      match cs2 with
      | 'r' :: 'u' :: 'e' :: r => some (Json.bool true, r)
      | _ => none
    | 'f' :: cs2 =>
      match cs2 with
      | 'a' :: 'l' :: 's' :: 'e' :: r => some (Json.bool false, r)
      | _ => none
    | '\"' :: cs2 =>
      (parseStringRest cs2).map (fun p => (Json.str (String.mk p.1), p.2))
    | '[' :: cs2 =>
      match skipWs cs2 with
      | ']' :: r => some (Json.arr [], r)
      | cs3 => (parseElements fuel cs3).map (fun p => (Json.arr p.1, p.2))
    | '{' :: cs2 =>
      match skipWs cs2 with
      | '}' :: r => some (Json.obj [], r)
      | cs3 => (parseMembers fuel cs3).map (fun p => (Json.obj p.1, p.2))
    | c :: cs2 =>
      if c = '-' ∨ c.isDigit then
        (parseNumber (c :: cs2)).map (fun p => (Json.num p.1, p.2))
      else none

/-- Parse the comma-separated elements of a non-empty JSON array, including the
closing bracket. -/
def parseElements : Nat → List Char → Option (List Json × List Char)
  | 0, _ => none
  | fuel + 1, cs =>
    match parseVal fuel cs with
    | none => none
    | some (v, r) =>
      match skipWs r with
      | ',' :: r2 => (parseElements fuel r2).map (fun p => (v :: p.1, p.2))
      | ']' :: r2 => some ([v], r2)
      | _ => none

/-- Parse the comma-separated members of a non-empty JSON object, including the
closing brace. -/
def parseMembers : Nat → List Char → Option (List (String × Json) × List Char)
  | 0, _ => none
  | fuel + 1, cs =>
    match skipWs cs with
    | '\"' :: cs2 =>
      match parseStringRest cs2 with
      | none => none
      | some (k, r) =>
        match skipWs r with
        | ':' :: r2 =>
          match parseVal fuel r2 with
          | none => none
          | some (v, r3) =>
            match skipWs r3 with
            | ',' :: r4 =>
              (parseMembers fuel r4).map (fun p => ((String.mk k, v) :: p.1, p.2))
            | '}' :: r4 => some ([(String.mk k, v)], r4)
            | _ => none
        | _ => none
    | _ => none

end

/-- `JSON.parse : string → value or failure` (`none` = a `SyntaxError` was
thrown). -/
def jsonParse (s : String) : Option Json :=
  match parseVal (2 * s.length + 2) s.data with
  | some (v, rest) => if (skipWs rest).isEmpty then some v else none
  | none => none

/-- The response handling of `extractInvoiceData` (`geminiService.ts` lines
76–85), given the text payload of the model response (`none` = the response
carried no `text`).  `!text` also fires on the empty string. -/
def extractInvoiceData (responseText : Option String) : Except String Json :=
  match responseText with
  | none => Except.error "No data returned from model"
  | some t =>
    if t = "" then Except.error "No data returned from model"
    else
      match jsonParse t with
      | some v => Except.ok v
      | none => Except.error "Failed to parse model response"

/-- The response handling of `extractBusinessCardData` (`geminiService.ts`
lines 121–130); textually identical to the invoice one. -/
def extractBusinessCardData (responseText : Option String) : Except String Json :=
  match responseText with
  | none => Except.error "No data returned from model"
  | some t =>
    if t = "" then Except.error "No data returned from model"
    else
      match jsonParse t with
      | some v => Except.ok v
      | none => Except.error "Failed to parse model response"

/-- Whether an `Except` result is a failure. -/
def isErr {ε α : Type} : Except ε α → Bool
  | Except.error _ => true
  | Except.ok _ => false

/-! ## Helper lemmas: the batch loops -/

theorem invoiceStep_fileName (d : Nat → Nat) (e : Nat → JSFile → Except String RawInvoiceData)
    (i : Nat) (f : JSFile) : (invoiceStep d e i f).fileName = f.name := by
  unfold invoiceStep
  cases e i f <;> rfl

theorem invoiceStep_id (d : Nat → Nat) (e : Nat → JSFile → Except String RawInvoiceData)
    (i : Nat) (f : JSFile) : (invoiceStep d e i f).id = randomIdString (d i) := by
  unfold invoiceStep
  cases e i f <;> rfl

theorem businessCardStep_fileName (d : Nat → Nat)
    (e : Nat → JSFile → Except String RawBusinessCardData) (i : Nat) (f : JSFile) :
    (businessCardStep d e i f).fileName = f.name := by
  unfold businessCardStep
  cases e i f <;> rfl

theorem businessCardStep_id (d : Nat → Nat)
    (e : Nat → JSFile → Except String RawBusinessCardData) (i : Nat) (f : JSFile) :
    (businessCardStep d e i f).id = randomIdString (d i) := by
  unfold businessCardStep
  cases e i f <;> rfl

theorem invoiceLoop_length (d : Nat → Nat) (e : Nat → JSFile → Except String RawInvoiceData)
    (fs : List JSFile) : ∀ i : Nat, (invoiceLoop d e i fs).length = fs.length := by
  induction fs with
  | nil => intro i; rfl
  | cons f t ih => intro i; simp [invoiceLoop, ih]

theorem businessCardLoop_length (d : Nat → Nat)
    (e : Nat → JSFile → Except String RawBusinessCardData) (fs : List JSFile) :
    ∀ i : Nat, (businessCardLoop d e i fs).length = fs.length := by
  induction fs with
  | nil => intro i; rfl
  | cons f t ih => intro i; simp [businessCardLoop, ih]

theorem invoiceLoop_map_fileName (d : Nat → Nat)
    (e : Nat → JSFile → Except String RawInvoiceData) (fs : List JSFile) :
    ∀ i : Nat, (invoiceLoop d e i fs).map InvoiceData.fileName = fs.map JSFile.name := by
  induction fs with
  | nil => intro i; rfl
  | cons f t ih => intro i; simp [invoiceLoop, ih, invoiceStep_fileName]

theorem businessCardLoop_map_fileName (d : Nat → Nat)
    (e : Nat → JSFile → Except String RawBusinessCardData) (fs : List JSFile) :
    ∀ i : Nat,
      (businessCardLoop d e i fs).map BusinessCardData.fileName = fs.map JSFile.name := by
  induction fs with
  | nil => intro i; rfl
  | cons f t ih => intro i; simp [businessCardLoop, ih, businessCardStep_fileName]

theorem invoiceLoop_getD (d : Nat → Nat) (e : Nat → JSFile → Except String RawInvoiceData)
    (w : InvoiceData) (fw : JSFile) (fs : List JSFile) :
    ∀ i p : Nat, p < fs.length →
      (invoiceLoop d e i fs).getD p w = invoiceStep d e (i + p) (fs.getD p fw) := by
  induction fs with
  | nil => intro i p h; simp at h
  | cons f t ih =>
    intro i p h
    cases p with
    | zero => simp [invoiceLoop]
    | succ q =>
      have hq : q < t.length := by simpa using h
      simp only [invoiceLoop, List.getD_cons_succ]
      rw [ih (i + 1) q hq]
      have harg : i + 1 + q = i + (q + 1) := by omega
      rw [harg]

theorem businessCardLoop_getD (d : Nat → Nat)
    (e : Nat → JSFile → Except String RawBusinessCardData)
    (w : BusinessCardData) (fw : JSFile) (fs : List JSFile) :
    ∀ i p : Nat, p < fs.length →
      (businessCardLoop d e i fs).getD p w = businessCardStep d e (i + p) (fs.getD p fw) := by
  induction fs with
  | nil => intro i p h; simp at h
  | cons f t ih =>
    intro i p h
    cases p with
    | zero => simp [businessCardLoop]
    | succ q =>
      have hq : q < t.length := by simpa using h
      simp only [businessCardLoop, List.getD_cons_succ]
      rw [ih (i + 1) q hq]
      have harg : i + 1 + q = i + (q + 1) := by omega
      rw [harg]

theorem invoiceLoop_map_id (d : Nat → Nat) (e : Nat → JSFile → Except String RawInvoiceData)
    (fs : List JSFile) :
    ∀ i : Nat, (invoiceLoop d e i fs).map InvoiceData.id =
      (List.range fs.length).map (fun p => randomIdString (d (i + p))) := by
  induction fs with
  | nil => intro i; rfl
  | cons f t ih =>
    intro i
    simp only [invoiceLoop, List.map_cons, invoiceStep_id, List.length_cons,
      List.range_succ_eq_map, List.map_map, ih (i + 1)]
    refine congrArg₂ _ (by simp) (List.map_congr_left fun p _ => ?_)
    have harg : i + 1 + p = i + (p + 1) := by omega
    simp [Function.comp, Nat.succ_eq_add_one, harg]

theorem businessCardLoop_map_id (d : Nat → Nat)
    (e : Nat → JSFile → Except String RawBusinessCardData) (fs : List JSFile) :
    ∀ i : Nat, (businessCardLoop d e i fs).map BusinessCardData.id =
      (List.range fs.length).map (fun p => randomIdString (d (i + p))) := by
  induction fs with
  | nil => intro i; rfl
  | cons f t ih =>
    intro i
    simp only [businessCardLoop, List.map_cons, businessCardStep_id, List.length_cons,
      List.range_succ_eq_map, List.map_map, ih (i + 1)]
    refine congrArg₂ _ (by simp) (List.map_congr_left fun p _ => ?_)
    have harg : i + 1 + p = i + (p + 1) := by omega
    simp [Function.comp, Nat.succ_eq_add_one, harg]


/-! ## Helper lemmas: identifier strings -/

theorem pow52_pos : 0 < POW52 := by
  unfold POW52
  positivity

theorem idFracDigits_length_le : ∀ n r : Nat, (idFracDigits n r).length ≤ n := by
  intro n
  induction n with
  | zero => intro r; simp [idFracDigits]
  | succ m ih =>
    intro r
    by_cases hr : r = 0
    · simp [idFracDigits, hr]
    · simp only [idFracDigits, if_neg hr, List.length_cons]
      exact Nat.succ_le_succ (ih _)

theorem idFracDigits_lt : ∀ n r : Nat, r < POW52 → ∀ x ∈ idFracDigits n r, x < 36 := by
  intro n
  induction n with
  | zero => intro r _ x hx; simp [idFracDigits] at hx
  | succ m ih =>
    intro r hr x hx
    by_cases h0 : r = 0
    · simp [idFracDigits, h0] at hx
    · simp only [idFracDigits, if_neg h0, List.mem_cons] at hx
      rcases hx with hx | hx
      · subst hx
        have : r * 36 < 36 * POW52 := by
          have := Nat.mul_lt_mul_of_lt_of_le hr (Nat.le_refl 36) (by norm_num)
          omega
        exact (Nat.div_lt_iff_lt_mul pow52_pos).mpr (by omega)
      · exact ih _ (Nat.mod_lt _ pow52_pos) x hx

theorem beVal_idFracDigits :
    ∀ n r : Nat, r < POW52 →
      beVal (idFracDigits n r) * 36 ^ (n - (idFracDigits n r).length) =
        r * 36 ^ n / POW52 := by
  intro n
  induction n with
  | zero =>
    intro r hr
    simp [idFracDigits, beVal, Nat.div_eq_of_lt hr]
  | succ m ih =>
    intro r hr
    by_cases h0 : r = 0
    · simp [idFracDigits, h0, beVal]
    · have hr36 : r * 36 % POW52 < POW52 := Nat.mod_lt _ pow52_pos
      have hih := ih (r * 36 % POW52) hr36
      have hlen := idFracDigits_length_le m (r * 36 % POW52)
      simp only [idFracDigits, if_neg h0, beVal, List.length_cons]
      set L := (idFracDigits m (r * 36 % POW52)).length with hL
      set d := r * 36 / POW52 with hd
      set r2 := r * 36 % POW52 with hr2
      have hsub : m + 1 - (L + 1) = m - L := by omega
      rw [hsub, Nat.add_mul, Nat.mul_assoc, ← Nat.pow_add]
      have hpow : L + (m - L) = m := by omega
      rw [hpow, hih]
      have hsplit : r * 36 ^ (m + 1) = POW52 * (d * 36 ^ m) + r2 * 36 ^ m := by
        have hdm : POW52 * d + r2 = r * 36 := Nat.div_add_mod (r * 36) POW52
        calc r * 36 ^ (m + 1) = (r * 36) * 36 ^ m := by ring
          _ = (POW52 * d + r2) * 36 ^ m := by rw [hdm]
          _ = POW52 * (d * 36 ^ m) + r2 * 36 ^ m := by ring
      rw [hsplit, Nat.mul_add_div pow52_pos]

theorem base36_roundtrip : ∀ d : Fin 36, base36CharVal (base36DigitChar d.val) = d.val := by
  decide

theorem idStringToTrunc_randomIdString (k : Nat) (hk : k < POW52) :
    idStringToTrunc (randomIdString k) = idTrunc k := by
  unfold idStringToTrunc randomIdString idTrunc
  have hdata : (String.mk ((idFracDigits 9 k).map base36DigitChar)).data =
      (idFracDigits 9 k).map base36DigitChar := rfl
  rw [hdata, List.map_map, List.length_map]
  have hmap : (idFracDigits 9 k).map (base36CharVal ∘ base36DigitChar) = idFracDigits 9 k := by
    have := List.map_congr_left (l := idFracDigits 9 k)
      (f := base36CharVal ∘ base36DigitChar) (g := id)
      (fun x hx => base36_roundtrip ⟨x, idFracDigits_lt 9 k hk x hx⟩)
    simpa using this
  rw [hmap]
  exact beVal_idFracDigits 9 k hk

theorem randomIdString_inj_on_trunc {k1 k2 : Nat} (h1 : k1 < POW52) (h2 : k2 < POW52)
    (h : randomIdString k1 = randomIdString k2) : idTrunc k1 = idTrunc k2 := by
  rw [← idStringToTrunc_randomIdString k1 h1, ← idStringToTrunc_randomIdString k2 h2, h]

theorem randomIdString_ne_empty {k : Nat} (hk : k ≠ 0) : randomIdString k ≠ "" := by
  unfold randomIdString
  intro hcon
  have : ((idFracDigits 9 k).map base36DigitChar) = [] := by
    have := congrArg String.data hcon
    simpa using this
  rw [List.map_eq_nil_iff] at this
  have h9 : idFracDigits 9 k = (k * 36) / POW52 :: idFracDigits 8 ((k * 36) % POW52) := by
    simp [idFracDigits, hk]
  rw [h9] at this
  exact List.cons_ne_nil _ _ this

/-! ## Helper lemmas: component state machines -/

theorem invoiceTab_status_ne_error {s : InvoiceTabState} (h : InvoiceTabReachable s) :
    s.status ≠ ExtractionStatus.error := by
  induction h with
  | start => simp [invoiceTabStart]
  | step _ hstep ih =>
    cases hstep with
    | select fs s => simpa [handleFilesSelectedInvoice] using ih
    | beginProcessing s hne => simp
    | process d e s2 =>
      unfold processFilesInvoice
      split
      · simpa using ih
      · simp

theorem cardTab_status_ne_error {s : BusinessCardTabState} (h : CardTabReachable s) :
    s.status ≠ ExtractionStatus.error := by
  induction h with
  | start => simp [businessCardTabStart]
  | step _ hstep ih =>
    cases hstep with
    | select fs s => simpa [handleFilesSelectedCard] using ih
    | beginProcessing s hne => simp
    | process d e s2 =>
      unfold processFilesCard
      split
      · simpa using ih
      · simp

/-! ## Helper lemmas: clipboard export -/

theorem intercalate_go_spec (sep : String) :
    ∀ (as : List String) (acc : String),
      String.intercalate.go acc sep as = acc ++ joinSepTail sep as := by
  intro as
  induction as with
  | nil => intro acc; simp [String.intercalate.go, joinSepTail]
  | cons a t ih =>
    intro acc
    simp only [String.intercalate.go, joinSepTail, ih]
    rw [← String.append_assoc, ← String.append_assoc]

theorem intercalate_cons (sep a : String) (as : List String) :
    String.intercalate sep (a :: as) = a ++ joinSepTail sep as := by
  rw [String.intercalate, intercalate_go_spec]

theorem joinWithNewline_cons :
    ∀ (t : List String) (a : String), joinWithNewline (a :: t) = a ++ joinSepTail "\n" t := by
  intro t
  induction t with
  | nil => intro a; simp [joinWithNewline, joinSepTail]
  | cons b t2 ih =>
    intro a
    show a ++ "\n" ++ joinWithNewline (b :: t2) = a ++ joinSepTail "\n" (b :: t2)
    rw [ih b]
    simp [joinSepTail, String.append_assoc]

theorem joinWithNewline_eq_intercalate (l : List String) :
    joinWithNewline l = String.intercalate "\n" l := by
  cases l with
  | nil => rfl
  | cons a t => rw [intercalate_cons, joinWithNewline_cons]

theorem businessCardLine_eq_intercalate (c : BusinessCardData) :
    businessCardLine c = String.intercalate "; "
      [c.full_name.getD "", c.company.getD "", c.job_title.getD "",
       c.email.getD "", c.phone.getD "", c.website.getD "", c.address.getD ""] := by
  rw [intercalate_cons]
  simp only [businessCardLine, joinSepTail]
  simp [String.append_assoc]

theorem newlineCount_append (a b : String) :
    newlineCount (a ++ b) = newlineCount a + newlineCount b := by
  unfold newlineCount
  rw [String.data_append, List.count_append]

theorem newlineCount_joinWithNewline :
    ∀ l : List String, l ≠ [] → (∀ x ∈ l, newlineCount x = 0) →
      newlineCount (joinWithNewline l) + 1 = l.length := by
  intro l
  induction l with
  | nil => intro h; exact absurd rfl h
  | cons a t ih =>
    intro _ hz
    cases t with
    | nil =>
      have := hz a (by simp)
      simp [joinWithNewline, this]
    | cons b t2 =>
      have ha := hz a (by simp)
      have hrest : ∀ x ∈ b :: t2, newlineCount x = 0 := fun x hx => hz x (by simp [hx])
      have hih := ih (by simp) hrest
      show newlineCount (a ++ "\n" ++ joinWithNewline (b :: t2)) + 1 = _
      rw [newlineCount_append, newlineCount_append, ha]
      have hnl : newlineCount "\n" = 1 := rfl
      rw [hnl]
      simp only [List.length_cons] at hih ⊢
      omega

/-! ## The claims -/

/-- Claim C1: for every batch run over a non-empty file queue, exactly one
record is appended per submitted file — the results have the same length as
the queue, and the record at each position carries the name of the file
submitted at that position (shown for both the invoice and the business-card
pipeline). -/
theorem claim_C1_one_record_per_file (draws : Nat → Nat)
    (eInv : Nat → JSFile → Except String RawInvoiceData)
    (eCard : Nat → JSFile → Except String RawBusinessCardData)
    (files : List JSFile) (hne : files ≠ []) :
    ((runInvoiceBatch draws eInv files).length = files.length ∧
      (runInvoiceBatch draws eInv files).map InvoiceData.fileName =
        files.map JSFile.name) ∧
    ((runBusinessCardBatch draws eCard files).length = files.length ∧
      (runBusinessCardBatch draws eCard files).map BusinessCardData.fileName =
        files.map JSFile.name) :=
  ⟨⟨invoiceLoop_length draws eInv files 0, invoiceLoop_map_fileName draws eInv files 0⟩,
   ⟨businessCardLoop_length draws eCard files 0,
    businessCardLoop_map_fileName draws eCard files 0⟩⟩

/-- Witness for C1 at a concrete two-file queue with one failing file. -/
theorem claim_C1_witness :
    ([⟨"a.pdf", "xx"⟩, ⟨"b.pdf", "yy"⟩] : List JSFile) ≠ [] ∧
    (((runInvoiceBatch (fun _ => 0) (fun _ _ => Except.error "boom")
          [⟨"a.pdf", "xx"⟩, ⟨"b.pdf", "yy"⟩]).length =
        ([⟨"a.pdf", "xx"⟩, ⟨"b.pdf", "yy"⟩] : List JSFile).length ∧
      (runInvoiceBatch (fun _ => 0) (fun _ _ => Except.error "boom")
          [⟨"a.pdf", "xx"⟩, ⟨"b.pdf", "yy"⟩]).map InvoiceData.fileName =
        ([⟨"a.pdf", "xx"⟩, ⟨"b.pdf", "yy"⟩] : List JSFile).map JSFile.name) ∧
    ((runBusinessCardBatch (fun _ => 0)
          (fun _ _ => Except.ok ⟨none, none, none, none, none, none, none⟩)
          [⟨"a.pdf", "xx"⟩, ⟨"b.pdf", "yy"⟩]).length =
        ([⟨"a.pdf", "xx"⟩, ⟨"b.pdf", "yy"⟩] : List JSFile).length ∧
      (runBusinessCardBatch (fun _ => 0)
          (fun _ _ => Except.ok ⟨none, none, none, none, none, none, none⟩)
          [⟨"a.pdf", "xx"⟩, ⟨"b.pdf", "yy"⟩]).map BusinessCardData.fileName =
        ([⟨"a.pdf", "xx"⟩, ⟨"b.pdf", "yy"⟩] : List JSFile).map JSFile.name)) :=
  ⟨by decide,
   claim_C1_one_record_per_file (fun _ => 0) (fun _ _ => Except.error "boom")
     (fun _ _ => Except.ok ⟨none, none, none, none, none, none, none⟩)
     [⟨"a.pdf", "xx"⟩, ⟨"b.pdf", "yy"⟩] (by decide)⟩

/-- Claim C3: normalization passes present fields through unchanged and
substitutes the documented defaults for absent fields — the Invoice scenario
`\x7bsupplier_name: "Acme Co", total_amount: 150.5\x7d` and the BusinessCard
scenario `\x7bfull_name: "Jane Doe"\x7d` produce exactly the documented
records. -/
theorem claim_C3_normalization_scenarios (gid name : String) :
    normalizeInvoice gid name
        { invoice_number := none, invoice_date := none,
          supplier_name := some "Acme Co", supplier_tax_id := none,
          total_amount := some 150.5, currency := none, tax_amount := none,
          line_items := none } =
      { id := gid, fileName := name, invoice_number := none, invoice_date := none,
        supplier_name := some "Acme Co", supplier_tax_id := none,
        total_amount := some 150.5, currency := some "USD", tax_amount := some 0,
        line_items := [] } ∧
    normalizeBusinessCard gid name
        { full_name := some "Jane Doe", company := none, job_title := none,
          email := none, phone := none, website := none, address := none } =
      { id := gid, fileName := name, full_name := some "Jane Doe", company := none,
        job_title := none, email := none, phone := none, website := none,
        address := none } :=
  ⟨rfl, rfl⟩

/-- Claim C4: when extraction fails for an Invoice file, the placeholder
appended at that file position has the original file name and the sentinel
field values (`invoice_number = "ERROR"`, `supplier_name = "Extraction
Failed"`, zero amounts, empty currency, no line items). -/
theorem claim_C4_failure_placeholder (draws : Nat → Nat)
    (extract : Nat → JSFile → Except String RawInvoiceData) (files : List JSFile)
    (i : Nat) (w : InvoiceData) (fw : JSFile) (msg : String)
    (hi : i < files.length)
    (hfail : extract i (files.getD i fw) = Except.error msg) :
    (runInvoiceBatch draws extract files).getD i w =
      { id := randomIdString (draws i), fileName := (files.getD i fw).name,
        invoice_number := some "ERROR", invoice_date := none,
        supplier_name := some "Extraction Failed", supplier_tax_id := none,
        total_amount := some 0, currency := some "", tax_amount := some 0,
        line_items := [] } := by
  unfold runInvoiceBatch
  rw [invoiceLoop_getD draws extract w fw files 0 i hi, Nat.zero_add]
  unfold invoiceStep
  rw [hfail]
  rfl

/-- Witness for C4: the model call for `scan1.pdf` throws, and the placeholder
record has exactly the claimed fields. -/
theorem claim_C4_witness :
    (0 : Nat) < ([⟨"scan1.pdf", "bytes"⟩] : List JSFile).length ∧
    (runInvoiceBatch (fun _ => 0) (fun _ _ => Except.error "model failure")
        [⟨"scan1.pdf", "bytes"⟩]).getD 0 (invoiceFailureRecord "w" "w") =
      { id := randomIdString 0, fileName := "scan1.pdf",
        invoice_number := some "ERROR", invoice_date := none,
        supplier_name := some "Extraction Failed", supplier_tax_id := none,
        total_amount := some 0, currency := some "", tax_amount := some 0,
        line_items := [] } :=
  ⟨by decide,
   claim_C4_failure_placeholder (fun _ => 0) (fun _ _ => Except.error "model failure")
     [⟨"scan1.pdf", "bytes"⟩] 0 (invoiceFailureRecord "w" "w") ⟨"z", "z"⟩
     "model failure" (by decide) rfl⟩

/-- Claim C7: normalization is the identity on already-complete raw input — if
every schema field of the raw extraction result is present, the normalized
record carries exactly the supplied values and no default is substituted
(both kinds, any file name and id). -/
theorem claim_C7_identity_on_complete (gidI nameI gidC nameC : String)
    (rawI : RawInvoiceData) (rawC : RawBusinessCardData)
    (n0 d0 s0 t0 c0 : String) (a0 x0 : ℚ) (li : List LineItem)
    (f1 c1 j1 e1 p1 w1 a1 : String)
    (hI : rawI = ⟨some n0, some d0, some s0, some t0, some a0, some c0, some x0, some li⟩)
    (hC : rawC = ⟨some f1, some c1, some j1, some e1, some p1, some w1, some a1⟩) :
    normalizeInvoice gidI nameI rawI =
      ⟨gidI, nameI, some n0, some d0, some s0, some t0, some a0, some c0, some x0, li⟩ ∧
    normalizeBusinessCard gidC nameC rawC =
      ⟨gidC, nameC, some f1, some c1, some j1, some e1, some p1, some w1, some a1⟩ := by
  subst hI hC
  exact ⟨rfl, rfl⟩

/-- Witness for C7 at concrete complete raw payloads. -/
theorem claim_C7_witness :
    normalizeInvoice "id1" "inv.pdf"
        ⟨some "42", some "2024-01-01", some "Acme", some "TAX9", some 10,
         some "EUR", some 2, some [⟨"pens", 3, 1, 3⟩]⟩ =
      ⟨"id1", "inv.pdf", some "42", some "2024-01-01", some "Acme", some "TAX9",
       some 10, some "EUR", some 2, [⟨"pens", 3, 1, 3⟩]⟩ ∧
    normalizeBusinessCard "id2" "card.jpg"
        ⟨some "Jane", some "Acme", some "CTO", some "j at acme", some "555",
         some "acme.example", some "1 Main St"⟩ =
      ⟨"id2", "card.jpg", some "Jane", some "Acme", some "CTO", some "j at acme",
       some "555", some "acme.example", some "1 Main St"⟩ :=
  claim_C7_identity_on_complete "id1" "inv.pdf" "id2" "card.jpg" _ _ "42"
    "2024-01-01" "Acme" "TAX9" "EUR" 10 2 [⟨"pens", 3, 1, 3⟩] "Jane" "Acme" "CTO"
    "j at acme" "555" "acme.example" "1 Main St" rfl rfl

/-- Claim C9: the status is `success` after every completed batch run over a
non-empty queue (even if every file failed — the oracle is arbitrary, in
particular all-failing), and no reachable state of either tab has status
`error`. -/
theorem claim_C9_status_never_error :
    (∀ s : InvoiceTabState, InvoiceTabReachable s →
      s.status ≠ ExtractionStatus.error) ∧
    (∀ (draws : Nat → Nat) (e : Nat → JSFile → Except String RawInvoiceData)
        (s : InvoiceTabState), ¬ s.files.isEmpty →
      (processFilesInvoice draws e s).status = ExtractionStatus.success) ∧
    (∀ s : BusinessCardTabState, CardTabReachable s →
      s.status ≠ ExtractionStatus.error) ∧
    (∀ (draws : Nat → Nat) (e : Nat → JSFile → Except String RawBusinessCardData)
        (s : BusinessCardTabState), ¬ s.files.isEmpty →
      (processFilesCard draws e s).status = ExtractionStatus.success) := by
  refine ⟨fun s h => invoiceTab_status_ne_error h, fun draws e s hne => ?_,
    fun s h => cardTab_status_ne_error h, fun draws e s hne => ?_⟩
  · unfold processFilesInvoice
    rw [if_neg hne]
  · unfold processFilesCard
    rw [if_neg hne]

/-- Witness for C9: the initial states, and completed runs over a one-file
queue whose only file fails, ending in status `success`. -/
theorem claim_C9_witness :
    invoiceTabStart.status ≠ ExtractionStatus.error ∧
    (processFilesInvoice (fun _ => 0) (fun _ _ => Except.error "x")
        ⟨[⟨"a.pdf", "b"⟩], [], ExtractionStatus.processing, none⟩).status =
      ExtractionStatus.success ∧
    businessCardTabStart.status ≠ ExtractionStatus.error ∧
    (processFilesCard (fun _ => 0) (fun _ _ => Except.error "x")
        ⟨[⟨"a.jpg", "b"⟩], [], ExtractionStatus.processing, none⟩).status =
      ExtractionStatus.success :=
  ⟨claim_C9_status_never_error.1 _ InvoiceTabReachable.start,
   claim_C9_status_never_error.2.1 (fun _ => 0) (fun _ _ => Except.error "x") _
     (by decide),
   claim_C9_status_never_error.2.2.1 _ CardTabReachable.start,
   claim_C9_status_never_error.2.2.2 (fun _ => 0) (fun _ _ => Except.error "x") _
     (by decide)⟩

/-- Claim C10: a batch run appends the new records to the existing collection
(every previously present record is unchanged and keeps its position) and
resets the pending file queue to empty. -/
theorem claim_C10_append_and_clear (draws : Nat → Nat)
    (eInv : Nat → JSFile → Except String RawInvoiceData)
    (eCard : Nat → JSFile → Except String RawBusinessCardData)
    (sI : InvoiceTabState) (sC : BusinessCardTabState)
    (hI : ¬ sI.files.isEmpty) (hC : ¬ sC.files.isEmpty) :
    ((processFilesInvoice draws eInv sI).invoices =
        sI.invoices ++ runInvoiceBatch draws eInv sI.files ∧
      (∀ (i : Nat) (w : InvoiceData), i < sI.invoices.length →
        (processFilesInvoice draws eInv sI).invoices.getD i w =
          sI.invoices.getD i w) ∧
      (processFilesInvoice draws eInv sI).files = []) ∧
    ((processFilesCard draws eCard sC).cards =
        sC.cards ++ runBusinessCardBatch draws eCard sC.files ∧
      (∀ (i : Nat) (w : BusinessCardData), i < sC.cards.length →
        (processFilesCard draws eCard sC).cards.getD i w = sC.cards.getD i w) ∧
      (processFilesCard draws eCard sC).files = []) := by
  unfold processFilesInvoice processFilesCard
  rw [if_neg hI, if_neg hC]
  refine ⟨⟨rfl, fun i w hi => ?_, rfl⟩, ⟨rfl, fun i w hi => ?_, rfl⟩⟩
  · exact List.getD_append _ _ _ _ hi
  · exact List.getD_append _ _ _ _ hi

/-- Witness for C10 at concrete states with one pre-existing record each. -/
theorem claim_C10_witness :
    ¬ (⟨[⟨"n.pdf", "c"⟩], [invoiceFailureRecord "old" "old.pdf"],
        ExtractionStatus.idle, none⟩ : InvoiceTabState).files.isEmpty ∧
    (processFilesInvoice (fun _ => 0) (fun _ _ => Except.error "x")
        ⟨[⟨"n.pdf", "c"⟩], [invoiceFailureRecord "old" "old.pdf"],
         ExtractionStatus.idle, none⟩).invoices =
      [invoiceFailureRecord "old" "old.pdf"] ++
        runInvoiceBatch (fun _ => 0) (fun _ _ => Except.error "x") [⟨"n.pdf", "c"⟩] ∧
    (processFilesCard (fun _ => 0) (fun _ _ => Except.error "x")
        ⟨[⟨"n.jpg", "c"⟩], [businessCardFailureRecord "old" "old.jpg"],
         ExtractionStatus.idle, none⟩).files = [] :=
  ⟨by decide,
   (claim_C10_append_and_clear (fun _ => 0) (fun _ _ => Except.error "x")
      (fun _ _ => Except.error "x")
      ⟨[⟨"n.pdf", "c"⟩], [invoiceFailureRecord "old" "old.pdf"],
       ExtractionStatus.idle, none⟩
      ⟨[⟨"n.jpg", "c"⟩], [businessCardFailureRecord "old" "old.jpg"],
       ExtractionStatus.idle, none⟩ (by decide) (by decide)).1.1,
   (claim_C10_append_and_clear (fun _ => 0) (fun _ _ => Except.error "x")
      (fun _ _ => Except.error "x")
      ⟨[⟨"n.pdf", "c"⟩], [invoiceFailureRecord "old" "old.pdf"],
       ExtractionStatus.idle, none⟩
      ⟨[⟨"n.jpg", "c"⟩], [businessCardFailureRecord "old" "old.jpg"],
       ExtractionStatus.idle, none⟩ (by decide) (by decide)).2.2.2⟩

/-- Claim C2: per-file failure isolation — when the pipeline fails for the
file at position `i`, the orchestrator neither re-raises nor aborts: the run
still yields one record per file, position `i` holds the failure placeholder,
and every other position is exactly what it would have been had the failure
not occurred (any oracle agreeing on all other invocations yields the same
records off `i`). -/
theorem claim_C2_failure_isolation (draws : Nat → Nat)
    (eInv eInv2 : Nat → JSFile → Except String RawInvoiceData)
    (eCard eCard2 : Nat → JSFile → Except String RawBusinessCardData)
    (files : List JSFile) (i : Nat) (w : InvoiceData) (wc : BusinessCardData)
    (fw : JSFile) (msgI msgC : String)
    (hi : i < files.length)
    (hfailI : eInv i (files.getD i fw) = Except.error msgI)
    (hagreeI : ∀ j, j ≠ i → eInv j = eInv2 j)
    (hfailC : eCard i (files.getD i fw) = Except.error msgC)
    (hagreeC : ∀ j, j ≠ i → eCard j = eCard2 j) :
    ((runInvoiceBatch draws eInv files).length = files.length ∧
      (runInvoiceBatch draws eInv files).getD i w =
        invoiceFailureRecord (randomIdString (draws i)) (files.getD i fw).name ∧
      ∀ j, j < files.length → j ≠ i →
        (runInvoiceBatch draws eInv files).getD j w =
          (runInvoiceBatch draws eInv2 files).getD j w) ∧
    ((runBusinessCardBatch draws eCard files).length = files.length ∧
      (runBusinessCardBatch draws eCard files).getD i wc =
        businessCardFailureRecord (randomIdString (draws i)) (files.getD i fw).name ∧
      ∀ j, j < files.length → j ≠ i →
        (runBusinessCardBatch draws eCard files).getD j wc =
          (runBusinessCardBatch draws eCard2 files).getD j wc) := by
  refine ⟨⟨invoiceLoop_length draws eInv files 0, ?_, ?_⟩,
    ⟨businessCardLoop_length draws eCard files 0, ?_, ?_⟩⟩
  · unfold runInvoiceBatch
    rw [invoiceLoop_getD draws eInv w fw files 0 i hi, Nat.zero_add]
    unfold invoiceStep
    rw [hfailI]
  · intro j hj hji
    unfold runInvoiceBatch
    rw [invoiceLoop_getD draws eInv w fw files 0 j hj,
      invoiceLoop_getD draws eInv2 w fw files 0 j hj, Nat.zero_add]
    unfold invoiceStep
    rw [hagreeI j hji]
  · unfold runBusinessCardBatch
    rw [businessCardLoop_getD draws eCard wc fw files 0 i hi, Nat.zero_add]
    unfold businessCardStep
    rw [hfailC]
  · intro j hj hji
    unfold runBusinessCardBatch
    rw [businessCardLoop_getD draws eCard wc fw files 0 j hj,
      businessCardLoop_getD draws eCard2 wc fw files 0 j hj, Nat.zero_add]
    unfold businessCardStep
    rw [hagreeC j hji]

/-- Witness for C2: a three-file queue where only file 2 (index 1) fails,
compared against the run where that invocation succeeds instead. -/
theorem claim_C2_witness :
    (1 : Nat) < ([⟨"f1", "a"⟩, ⟨"f2", "b"⟩, ⟨"f3", "c"⟩] : List JSFile).length ∧
    ((runInvoiceBatch (fun _ => 0)
        (fun j _ => if j = 1 then Except.error "boom"
          else Except.ok ⟨none, none, none, none, none, none, none, none⟩)
        [⟨"f1", "a"⟩, ⟨"f2", "b"⟩, ⟨"f3", "c"⟩]).length =
      ([⟨"f1", "a"⟩, ⟨"f2", "b"⟩, ⟨"f3", "c"⟩] : List JSFile).length ∧
    (runInvoiceBatch (fun _ => 0)
        (fun j _ => if j = 1 then Except.error "boom"
          else Except.ok ⟨none, none, none, none, none, none, none, none⟩)
        [⟨"f1", "a"⟩, ⟨"f2", "b"⟩, ⟨"f3", "c"⟩]).getD 1 (invoiceFailureRecord "w" "w") =
      invoiceFailureRecord (randomIdString 0)
        (([⟨"f1", "a"⟩, ⟨"f2", "b"⟩, ⟨"f3", "c"⟩] : List JSFile).getD 1 ⟨"z", "z"⟩).name ∧
    ∀ j, j < ([⟨"f1", "a"⟩, ⟨"f2", "b"⟩, ⟨"f3", "c"⟩] : List JSFile).length → j ≠ 1 →
      (runInvoiceBatch (fun _ => 0)
          (fun j2 _ => if j2 = 1 then Except.error "boom"
            else Except.ok ⟨none, none, none, none, none, none, none, none⟩)
          [⟨"f1", "a"⟩, ⟨"f2", "b"⟩, ⟨"f3", "c"⟩]).getD j (invoiceFailureRecord "w" "w") =
        (runInvoiceBatch (fun _ => 0)
            (fun _ _ => Except.ok ⟨none, none, none, none, none, none, none, none⟩)
            [⟨"f1", "a"⟩, ⟨"f2", "b"⟩, ⟨"f3", "c"⟩]).getD j
          (invoiceFailureRecord "w" "w")) ∧
    ((runBusinessCardBatch (fun _ => 0)
        (fun j _ => if j = 1 then Except.error "card boom"
          else Except.ok ⟨none, none, none, none, none, none, none⟩)
        [⟨"f1", "a"⟩, ⟨"f2", "b"⟩, ⟨"f3", "c"⟩]).length =
      ([⟨"f1", "a"⟩, ⟨"f2", "b"⟩, ⟨"f3", "c"⟩] : List JSFile).length ∧
    (runBusinessCardBatch (fun _ => 0)
        (fun j _ => if j = 1 then Except.error "card boom"
          else Except.ok ⟨none, none, none, none, none, none, none⟩)
        [⟨"f1", "a"⟩, ⟨"f2", "b"⟩, ⟨"f3", "c"⟩]).getD 1
        (businessCardFailureRecord "w" "w") =
      businessCardFailureRecord (randomIdString 0)
        (([⟨"f1", "a"⟩, ⟨"f2", "b"⟩, ⟨"f3", "c"⟩] : List JSFile).getD 1 ⟨"z", "z"⟩).name ∧
    ∀ j, j < ([⟨"f1", "a"⟩, ⟨"f2", "b"⟩, ⟨"f3", "c"⟩] : List JSFile).length → j ≠ 1 →
      (runBusinessCardBatch (fun _ => 0)
          (fun j2 _ => if j2 = 1 then Except.error "card boom"
            else Except.ok ⟨none, none, none, none, none, none, none⟩)
          [⟨"f1", "a"⟩, ⟨"f2", "b"⟩, ⟨"f3", "c"⟩]).getD j
          (businessCardFailureRecord "w" "w") =
        (runBusinessCardBatch (fun _ => 0)
            (fun _ _ => Except.ok ⟨none, none, none, none, none, none, none⟩)
            [⟨"f1", "a"⟩, ⟨"f2", "b"⟩, ⟨"f3", "c"⟩]).getD j
          (businessCardFailureRecord "w" "w")) :=
  ⟨by decide,
   claim_C2_failure_isolation (fun _ => 0)
     (fun j _ => if j = 1 then Except.error "boom"
       else Except.ok ⟨none, none, none, none, none, none, none, none⟩)
     (fun _ _ => Except.ok ⟨none, none, none, none, none, none, none, none⟩)
     (fun j _ => if j = 1 then Except.error "card boom"
       else Except.ok ⟨none, none, none, none, none, none, none⟩)
     (fun _ _ => Except.ok ⟨none, none, none, none, none, none, none⟩)
     [⟨"f1", "a"⟩, ⟨"f2", "b"⟩, ⟨"f3", "c"⟩] 1 (invoiceFailureRecord "w" "w")
     (businessCardFailureRecord "w" "w") ⟨"z", "z"⟩ "boom" "card boom" (by decide) rfl
     (fun j hj => by funext f; simp [hj]) rfl (fun j hj => by funext f; simp [hj])⟩

/-- Claim C5: after the model call returns, extraction fails exactly when the
response carries no text payload (the model-error message, also fired by the
falsy empty string) or the text is rejected by `JSON.parse` (the distinct
parse-error message); every text accepted by `JSON.parse` is returned parsed,
without error, whatever fields it does or does not contain. -/
theorem claim_C5_error_taxonomy :
    (∀ t : Option String,
      (isErr (extractInvoiceData t) = true ↔
        t = none ∨ t = some "" ∨ ∃ s, t = some s ∧ jsonParse s = none) ∧
      (isErr (extractBusinessCardData t) = true ↔
        t = none ∨ t = some "" ∨ ∃ s, t = some s ∧ jsonParse s = none)) ∧
    (∀ (s : String) (v : Json), jsonParse s = some v →
      extractInvoiceData (some s) = Except.ok v ∧
      extractBusinessCardData (some s) = Except.ok v) ∧
    (extractInvoiceData none = Except.error "No data returned from model" ∧
      extractBusinessCardData none = Except.error "No data returned from model") ∧
    (∀ s : String, s ≠ "" → jsonParse s = none →
      extractInvoiceData (some s) = Except.error "Failed to parse model response" ∧
      extractBusinessCardData (some s) =
        Except.error "Failed to parse model response") ∧
    "No data returned from model" ≠ "Failed to parse model response" := by
  have hparse : ∀ s : String, s ≠ "" → ∀ v : Json, jsonParse s = some v →
      extractInvoiceData (some s) = Except.ok v ∧
      extractBusinessCardData (some s) = Except.ok v := by
    intro s hs v hj
    constructor
    · simp only [extractInvoiceData]
      rw [if_neg hs, hj]
    · simp only [extractBusinessCardData]
      rw [if_neg hs, hj]
  refine ⟨?_, ?_, ⟨rfl, rfl⟩, ?_, by decide⟩
  · intro t
    have core : ∀ f : Option String → Except String Json,
        (∀ x, f x = extractInvoiceData x) ∨ (∀ x, f x = extractBusinessCardData x) →
        (isErr (f t) = true ↔
          t = none ∨ t = some "" ∨ ∃ s, t = some s ∧ jsonParse s = none) := by
      intro f hf
      have hfx : ∀ x, f x = extractInvoiceData x ∨ f x = extractBusinessCardData x := by
        rcases hf with h | h
        · exact fun x => Or.inl (h x)
        · exact fun x => Or.inr (h x)
      have hsame : ∀ x, f x = extractInvoiceData x := by
        intro x
        rcases hfx x with h | h
        · exact h
        · rw [h]; cases x with
          | none => rfl
          | some s => simp only [extractInvoiceData, extractBusinessCardData]
      rw [hsame t]
      cases t with
      | none => simp [extractInvoiceData, isErr]
      | some s =>
        by_cases hs : s = ""
        · subst hs
          simp [extractInvoiceData, isErr]
        · cases hj : jsonParse s with
          | none =>
            simp only [extractInvoiceData]
            rw [if_neg hs, hj]
            simp [isErr, hs, hj]
          | some v =>
            simp only [extractInvoiceData]
            rw [if_neg hs, hj]
            simp [isErr, hs, hj]
    exact ⟨core extractInvoiceData (Or.inl fun _ => rfl),
      core extractBusinessCardData (Or.inr fun _ => rfl)⟩
  · intro s v hj
    have hs : s ≠ "" := by
      intro h
      subst h
      rw [show jsonParse "" = none from rfl] at hj
      exact Option.noConfusion hj
    exact hparse s hs v hj
  · intro s hs hj
    constructor
    · simp only [extractInvoiceData]
      rw [if_neg hs, hj]
    · simp only [extractBusinessCardData]
      rw [if_neg hs, hj]

/-- Witness for C5: a response whose valid JSON object lacks every required
field and carries an extra one parses successfully; an invalid text and a
missing payload fail with the two distinct messages. -/
theorem claim_C5_witness :
    jsonParse "\x7b\"company\":\"Acme\",\"extra\":\"1\"\x7d" =
      some (Json.obj [("company", Json.str "Acme"), ("extra", Json.str "1")]) ∧
    extractInvoiceData (some "\x7b\"company\":\"Acme\",\"extra\":\"1\"\x7d") =
      Except.ok (Json.obj [("company", Json.str "Acme"), ("extra", Json.str "1")]) ∧
    extractBusinessCardData (some "\x7b\"company\":\"Acme\",\"extra\":\"1\"\x7d") =
      Except.ok (Json.obj [("company", Json.str "Acme"), ("extra", Json.str "1")]) ∧
    ("not json" : String) ≠ "" ∧
    extractInvoiceData (some "not json") =
      Except.error "Failed to parse model response" ∧
    extractInvoiceData none = Except.error "No data returned from model" :=
  ⟨rfl,
   (claim_C5_error_taxonomy.2.1 "\x7b\"company\":\"Acme\",\"extra\":\"1\"\x7d"
     (Json.obj [("company", Json.str "Acme"), ("extra", Json.str "1")]) rfl).1,
   (claim_C5_error_taxonomy.2.1 "\x7b\"company\":\"Acme\",\"extra\":\"1\"\x7d"
     (Json.obj [("company", Json.str "Acme"), ("extra", Json.str "1")]) rfl).2,
   by decide,
   (claim_C5_error_taxonomy.2.2.2.1 "not json" (by decide) rfl).1,
   claim_C5_error_taxonomy.2.2.1.1⟩

/-- Claim C8: the clipboard export serializes the ordered results to the flat
line format — it coincides with the spec-side serializer (the seven declared
fields in declared order joined by `; `, null rendered as the empty string,
records joined by newlines), and when no field value contains a newline the
output has exactly one line (newline count + 1) per record. -/
theorem claim_C8_clipboard_format :
    (∀ cards : List BusinessCardData,
      getGoogleContactsText cards = specClipboardText cards) ∧
    (∀ cards : List BusinessCardData, cards ≠ [] →
      (∀ c ∈ cards, newlineCount (businessCardLine c) = 0) →
      newlineCount (getGoogleContactsText cards) + 1 = cards.length) := by
  constructor
  · intro cards
    unfold getGoogleContactsText specClipboardText
    cases cards with
    | nil => rfl
    | cons a t =>
      rw [if_neg (by simp)]
      rw [joinWithNewline_eq_intercalate]
      exact congrArg _ (List.map_congr_left fun c _ => businessCardLine_eq_intercalate c)
  · intro cards hne hz
    unfold getGoogleContactsText
    rw [if_neg (by simpa using hne)]
    have hmap : cards.map businessCardLine ≠ [] := by
      simpa using hne
    have hall : ∀ x ∈ cards.map businessCardLine, newlineCount x = 0 := by
      intro x hx
      obtain ⟨c, hc, rfl⟩ := List.mem_map.mp hx
      exact hz c hc
    have := newlineCount_joinWithNewline (cards.map businessCardLine) hmap hall
    simpa using this

/-- Witness for C8 at a concrete two-card collection (one failure placeholder,
one partly-filled card). -/
theorem claim_C8_witness :
    ([businessCardFailureRecord "i1" "f1.jpg",
      ⟨"i2", "f2.jpg", some "Jane Doe", some "Acme", none, none, none, none, none⟩] :
        List BusinessCardData) ≠ [] ∧
    (∀ c ∈ ([businessCardFailureRecord "i1" "f1.jpg",
      ⟨"i2", "f2.jpg", some "Jane Doe", some "Acme", none, none, none, none, none⟩] :
        List BusinessCardData), newlineCount (businessCardLine c) = 0) ∧
    getGoogleContactsText
        [businessCardFailureRecord "i1" "f1.jpg",
         ⟨"i2", "f2.jpg", some "Jane Doe", some "Acme", none, none, none, none, none⟩] =
      specClipboardText
        [businessCardFailureRecord "i1" "f1.jpg",
         ⟨"i2", "f2.jpg", some "Jane Doe", some "Acme", none, none, none, none, none⟩] ∧
    newlineCount (getGoogleContactsText
        [businessCardFailureRecord "i1" "f1.jpg",
         ⟨"i2", "f2.jpg", some "Jane Doe", some "Acme", none, none, none, none, none⟩]) +
      1 =
      ([businessCardFailureRecord "i1" "f1.jpg",
        ⟨"i2", "f2.jpg", some "Jane Doe", some "Acme", none, none, none, none, none⟩] :
          List BusinessCardData).length :=
  ⟨by decide, by decide,
   claim_C8_clipboard_format.1
     [businessCardFailureRecord "i1" "f1.jpg",
      ⟨"i2", "f2.jpg", some "Jane Doe", some "Acme", none, none, none, none, none⟩],
   claim_C8_clipboard_format.2
     [businessCardFailureRecord "i1" "f1.jpg",
      ⟨"i2", "f2.jpg", some "Jane Doe", some "Acme", none, none, none, none, none⟩]
     (by decide) (by decide)⟩

/-- Counterexample to C6 as stated: `Math.random()` carries no distinctness or
nonzero guarantee — if it returns 0 on both draws (mantissa 0, so
`(0).toString(36).substr(2, 9)` is the empty string), both records of a
two-file batch get the empty id: neither non-empty nor pairwise distinct. -/
theorem claim_C6_counterexample :
    ¬ ((∀ r ∈ runInvoiceBatch (fun _ => 0) (fun _ _ => Except.error "boom")
          [⟨"a.pdf", "x"⟩, ⟨"b.pdf", "y"⟩], r.id ≠ "") ∧
      ((runInvoiceBatch (fun _ => 0) (fun _ _ => Except.error "boom")
          [⟨"a.pdf", "x"⟩, ⟨"b.pdf", "y"⟩]).map InvoiceData.id).Pairwise (· ≠ ·)) := by
  decide

/-- Claim C6, amended: record ids are the base-36 fragments of fresh
`Math.random()` draws; provided every draw of the run is nonzero and the
draws' nine-digit base-36 truncations are pairwise distinct, every produced
record (success or placeholder, either pipeline) has a non-empty id and the
ids within the run are pairwise distinct. -/
theorem claim_C6_amended (draws : Nat → Nat)
    (eInv : Nat → JSFile → Except String RawInvoiceData)
    (eCard : Nat → JSFile → Except String RawBusinessCardData)
    (files : List JSFile)
    (hlt : ∀ i, i < files.length → draws i < POW52)
    (h0 : ∀ i, i < files.length → draws i ≠ 0)
    (hinj : ∀ i, i < files.length → ∀ j, j < files.length → i ≠ j →
      idTrunc (draws i) ≠ idTrunc (draws j)) :
    ((∀ r ∈ runInvoiceBatch draws eInv files, r.id ≠ "") ∧
      ((runInvoiceBatch draws eInv files).map InvoiceData.id).Pairwise (· ≠ ·)) ∧
    ((∀ r ∈ runBusinessCardBatch draws eCard files, r.id ≠ "") ∧
      ((runBusinessCardBatch draws eCard files).map BusinessCardData.id).Pairwise
        (· ≠ ·)) := by
  have hIdMap : (runInvoiceBatch draws eInv files).map InvoiceData.id =
      (List.range files.length).map (fun p => randomIdString (draws p)) := by
    unfold runInvoiceBatch
    rw [invoiceLoop_map_id draws eInv files 0]
    exact List.map_congr_left fun p _ => by rw [Nat.zero_add]
  have hIdMapC : (runBusinessCardBatch draws eCard files).map BusinessCardData.id =
      (List.range files.length).map (fun p => randomIdString (draws p)) := by
    unfold runBusinessCardBatch
    rw [businessCardLoop_map_id draws eCard files 0]
    exact List.map_congr_left fun p _ => by rw [Nat.zero_add]
  have hPair :
      ((List.range files.length).map (fun p => randomIdString (draws p))).Pairwise
        (· ≠ ·) := by
    rw [List.pairwise_map]
    refine List.Pairwise.imp_of_mem ?_ (List.pairwise_lt_range files.length)
    intro a b ha hb hab
    have ha2 := List.mem_range.mp ha
    have hb2 := List.mem_range.mp hb
    intro heq
    exact hinj a ha2 b hb2 (Nat.ne_of_lt hab)
      (randomIdString_inj_on_trunc (hlt a ha2) (hlt b hb2) heq)
  have hNe : ∀ g ∈ (List.range files.length).map (fun p => randomIdString (draws p)),
      g ≠ "" := by
    intro g hg
    obtain ⟨p, hp, rfl⟩ := List.mem_map.mp hg
    exact randomIdString_ne_empty (h0 p (List.mem_range.mp hp))
  refine ⟨⟨?_, by rw [hIdMap]; exact hPair⟩, ⟨?_, by rw [hIdMapC]; exact hPair⟩⟩
  · intro r hr
    have hmem : r.id ∈ (runInvoiceBatch draws eInv files).map InvoiceData.id :=
      List.mem_map_of_mem _ hr
    rw [hIdMap] at hmem
    exact hNe _ hmem
  · intro r hr
    have hmem : r.id ∈ (runBusinessCardBatch draws eCard files).map BusinessCardData.id :=
      List.mem_map_of_mem _ hr
    rw [hIdMapC] at hmem
    exact hNe _ hmem

/-- Witness for the amended C6 at a two-file batch whose draws are the nonzero
mantissas `2 ^ 45` and `2 ^ 46` (distinct nine-digit truncations). -/
theorem claim_C6_witness :
    (∀ i, i < ([⟨"a.pdf", "x"⟩, ⟨"b.pdf", "y"⟩] : List JSFile).length →
      (if i = 0 then 2 ^ 45 else 2 ^ 46) < POW52) ∧
    (∀ i, i < ([⟨"a.pdf", "x"⟩, ⟨"b.pdf", "y"⟩] : List JSFile).length →
      (if i = 0 then 2 ^ 45 else 2 ^ 46 : Nat) ≠ 0) ∧
    (∀ i, i < ([⟨"a.pdf", "x"⟩, ⟨"b.pdf", "y"⟩] : List JSFile).length →
      ∀ j, j < ([⟨"a.pdf", "x"⟩, ⟨"b.pdf", "y"⟩] : List JSFile).length → i ≠ j →
      idTrunc (if i = 0 then 2 ^ 45 else 2 ^ 46) ≠
        idTrunc (if j = 0 then 2 ^ 45 else 2 ^ 46)) ∧
    (((∀ r ∈ runInvoiceBatch (fun i => if i = 0 then 2 ^ 45 else 2 ^ 46)
          (fun _ _ => Except.error "boom") [⟨"a.pdf", "x"⟩, ⟨"b.pdf", "y"⟩],
        r.id ≠ "") ∧
      ((runInvoiceBatch (fun i => if i = 0 then 2 ^ 45 else 2 ^ 46)
          (fun _ _ => Except.error "boom")
          [⟨"a.pdf", "x"⟩, ⟨"b.pdf", "y"⟩]).map InvoiceData.id).Pairwise (· ≠ ·)) ∧
    ((∀ r ∈ runBusinessCardBatch (fun i => if i = 0 then 2 ^ 45 else 2 ^ 46)
          (fun _ _ => Except.ok ⟨none, none, none, none, none, none, none⟩)
          [⟨"a.pdf", "x"⟩, ⟨"b.pdf", "y"⟩], r.id ≠ "") ∧
      ((runBusinessCardBatch (fun i => if i = 0 then 2 ^ 45 else 2 ^ 46)
          (fun _ _ => Except.ok ⟨none, none, none, none, none, none, none⟩)
          [⟨"a.pdf", "x"⟩, ⟨"b.pdf", "y"⟩]).map BusinessCardData.id).Pairwise
        (· ≠ ·))) :=
  ⟨by decide, by decide, by decide,
   claim_C6_amended (fun i => if i = 0 then 2 ^ 45 else 2 ^ 46)
     (fun _ _ => Except.error "boom")
     (fun _ _ => Except.ok ⟨none, none, none, none, none, none, none⟩)
     [⟨"a.pdf", "x"⟩, ⟨"b.pdf", "y"⟩] (by decide) (by decide) (by decide)⟩
